import Mathlib

/-!
Verification development for the Towel-E-Commerce storefront UI.

The repository consists of four view components: `Navbar` (with the cart
drawer state, the global `window.addToCart` entry point and `removeFromCart`),
`CartModal`, `AllOrders` (the administrator order list with search and status
update), and `UserProfile` (order history and custom design requests).
Persistence is browser local storage holding JSON-serialized arrays under the
keys `cartItems`, `orders` and `customRequests`.

We shallow-embed the data model and the storage-touching operations.  Local
storage is a partial map from string keys to raw strings; `JSON.stringify`
and `JSON.parse` are modelled by an executable serializer and a fuel-based
recursive-descent parser over a `Json` value type.  JavaScript numbers are
modelled as integers (the program performs no fractional arithmetic on the
persisted fields; display-only formatting such as `toFixed` is out of scope),
and string operations (`toLowerCase`, `trim`, `includes`) are modelled on
ASCII, which covers the identifiers the program generates.
-/

namespace Towel

/-- JSON values, as produced by `JSON.parse` and consumed by
`JSON.stringify` in the browser.  Numbers are modelled as integers. -/
inductive Json where
  | null : Json
  | bool (b : Bool) : Json
  | num (n : Int) : Json
  | str (s : String) : Json
  | arr (elems : List Json) : Json
  | obj (fields : List (String × Json)) : Json

/-- Decimal digit character for `n < 10`. -/
def digitChar (n : Nat) : Char := Char.ofNat (48 + n)

/-- Decimal digits of a natural number, most significant first.
The first argument is fuel bounding the recursion depth. -/
def natToCharsAux : Nat → Nat → List Char
  | 0, _ => []
  | fuel + 1, n =>
    if n < 10 then [digitChar n]
    else natToCharsAux fuel (n / 10) ++ [digitChar (n % 10)]

/-- Decimal digits of a natural number. -/
def natToChars (n : Nat) : List Char := natToCharsAux (n + 1) n

/-- Decimal rendering of an integer, as `JSON.stringify` renders an
integral number. -/
def intToChars (i : Int) : List Char :=
  if i < 0 then '-' :: natToChars i.natAbs else natToChars i.natAbs

/-- Escape quote and backslash characters inside a JSON string literal. -/
def escapeChars : List Char → List Char
  | [] => []
  | '"' :: rest => '\\' :: '"' :: escapeChars rest
  | '\\' :: rest => '\\' :: '\\' :: escapeChars rest
  | c :: rest => c :: escapeChars rest

/-- Render a string as a quoted JSON string literal. -/
def quoteChars (s : String) : List Char :=
  '"' :: escapeChars s.data ++ ['"']

mutual

/-- `JSON.stringify`, restricted to the values this program produces:
no spaces, object keys quoted, numbers integral. -/
def Json.stringifyChars : Json → List Char
  | .null => ("null").data
  | .bool true => ("true").data
  | .bool false => ("false").data
  | .num i => intToChars i
  | .str s => quoteChars s
  | .arr elems => '[' :: stringifyElems elems ++ [']']
  | .obj fields => '\x7b' :: stringifyFields fields ++ ['\x7d']

/-- Comma-separated rendering of array elements. -/
def stringifyElems : List Json → List Char
  | [] => []
  | [j] => j.stringifyChars
  | j :: rest => j.stringifyChars ++ ',' :: stringifyElems rest

/-- Comma-separated rendering of object fields. -/
def stringifyFields : List (String × Json) → List Char
  | [] => []
  | [(k, v)] => quoteChars k ++ ':' :: v.stringifyChars
  | (k, v) :: rest => quoteChars k ++ ':' :: v.stringifyChars ++ ',' :: stringifyFields rest

end

/-- `JSON.stringify` producing a string. -/
def Json.stringify (j : Json) : String := String.mk j.stringifyChars

/-- Drop leading JSON whitespace. -/
def skipWs : List Char → List Char
  | ' ' :: rest => skipWs rest
  | '\t' :: rest => skipWs rest
  | '\n' :: rest => skipWs rest
  | '\r' :: rest => skipWs rest
  | cs => cs

/-- Parse the body of a JSON string literal (after the opening quote),
with an accumulator for the characters read so far.  Only the escapes the
serializer emits are recognized. -/
def parseStringChars : List Char → List Char → Option (String × List Char)
  | acc, '\\' :: '"' :: rest => parseStringChars (acc ++ ['"']) rest
  | acc, '\\' :: '\\' :: rest => parseStringChars (acc ++ ['\\']) rest
  | _, '\\' :: _ => none
  | acc, '"' :: rest => some (String.mk acc, rest)
  | acc, c :: rest => parseStringChars (acc ++ [c]) rest
  | _, [] => none

/-- Split a leading run of decimal digits from the input. -/
def takeDigits : List Char → List Char × List Char
  | [] => ([], [])
  | c :: rest =>
    if c.isDigit then
      let (ds, r) := takeDigits rest
      (c :: ds, r)
    else ([], c :: rest)

/-- Numeric value of a list of decimal digits. -/
def digitsVal (ds : List Char) : Nat :=
  ds.foldl (fun n c => n * 10 + (c.toNat - 48)) 0

/-- Consume an expected literal from the front of the input. -/
def stripLit (kw : String) (cs : List Char) : Option (List Char) :=
  if kw.data.isPrefixOf cs then some (cs.drop kw.data.length) else none

mutual

/-- Recursive-descent JSON value parser; the first argument is fuel.
Returns the parsed value and the unconsumed remainder, or `none` on
malformed input (as `JSON.parse` throwing a `SyntaxError`). -/
def parseVal : Nat → List Char → Option (Json × List Char)
  | 0, _ => none
  | fuel + 1, cs =>
    match skipWs cs with
    | 'n' :: rest =>
      (match stripLit ("ull") rest with
       | some rest' => some (Json.null, rest')
       | none => none)
    | 't' :: rest =>
      (match stripLit ("rue") rest with
       | some rest' => some (Json.bool true, rest')
       | none => none)
    | 'f' :: rest =>
      (match stripLit ("alse") rest with
       | some rest' => some (Json.bool false, rest')
       | none => none)
    | '"' :: rest =>
      match parseStringChars [] rest with
      | some (s, rest') => some (Json.str s, rest')
      | none => none
    | '[' :: rest =>
      (match skipWs rest with
       | ']' :: rest' => some (Json.arr [], rest')
       | cs' =>
         match parseElems fuel cs' with
         | some (elems, rest') => some (Json.arr elems, rest')
         | none => none)
    | '\x7b' :: rest =>
      (match skipWs rest with
       | '\x7d' :: rest' => some (Json.obj [], rest')
       | cs' =>
         match parseFields fuel cs' with
         | some (fields, rest') => some (Json.obj fields, rest')
         | none => none)
    | '-' :: rest =>
      (match takeDigits rest with
       | ([], _) => none
       | (ds, rest') => some (Json.num (-(digitsVal ds : Int)), rest'))
    | c :: rest =>
      if c.isDigit then
        match takeDigits (c :: rest) with
        | (ds, rest') => some (Json.num (digitsVal ds : Int), rest')
      else none
    | [] => none

/-- Parse the elements of a non-empty JSON array, up to and including the
closing bracket. -/
def parseElems : Nat → List Char → Option (List Json × List Char)
  | 0, _ => none
  | fuel + 1, cs =>
    match parseVal fuel cs with
    | none => none
    | some (j, rest) =>
      match skipWs rest with
      | ',' :: rest' =>
        (match parseElems fuel rest' with
         | some (elems, rest'') => some (j :: elems, rest'')
         | none => none)
      | ']' :: rest' => some ([j], rest')
      | _ => none

/-- Parse the fields of a non-empty JSON object, up to and including the
closing brace. -/
def parseFields : Nat → List Char → Option (List (String × Json) × List Char)
  | 0, _ => none
  | fuel + 1, cs =>
    match skipWs cs with
    | '"' :: rest =>
      (match parseStringChars [] rest with
       | none => none
       | some (k, rest') =>
         match skipWs rest' with
         | ':' :: rest'' =>
           (match parseVal fuel rest'' with
            | none => none
            | some (v, rest3) =>
              match skipWs rest3 with
              | ',' :: rest4 =>
                (match parseFields fuel rest4 with
                 | some (fields, rest5) => some ((k, v) :: fields, rest5)
                 | none => none)
              | '\x7d' :: rest4 => some ([(k, v)], rest4)
              | _ => none)
         | _ => none)
    | _ => none

end

/-- `JSON.parse`: parse a complete JSON document; trailing non-whitespace
makes the document malformed.  `none` models the thrown `SyntaxError`. -/
def Json.parse (s : String) : Option Json :=
  match parseVal (s.data.length + 1) s.data with
  | some (j, rest) =>
    match skipWs rest with
    | [] => some j
    | _ => none
  | none => none

/-- Browser local storage: a partial map from string keys to raw string
values (`localStorage.getItem` returns `null` for a missing key). -/
def Store := String → Option String

/-- Local storage with no keys set. -/
def Store.empty : Store := fun _ => none

/-- `localStorage.setItem`. -/
def Store.set (store : Store) (k v : String) : Store :=
  fun k' => if k' = k then some v else store k'

/-- Cart entry, from the `CartItem` interface in `CartModal.tsx`
(fields `id`, `name`, `price`, `quantity`, `image`). -/
structure CartItem where
  id : String
  name : String
  price : Int
  quantity : Int
  image : String
deriving DecidableEq

/-- Line item inside an order, from the `OrderItem` interface in
`UserProfile.tsx` (same fields as `CartItem`). -/
structure OrderItem where
  id : String
  name : String
  price : Int
  quantity : Int
  image : String
deriving DecidableEq

/-- Order record, from the `Order` interfaces in `AllOrders.tsx` and
`UserProfile.tsx` (fields `id`, `items`, `total`, `date`, `status`). -/
structure Order where
  id : String
  items : List OrderItem
  total : Int
  date : String
  status : String
deriving DecidableEq

/-- Custom design request record, from the `CustomRequest` interface in
`UserProfile.tsx`; `image` is `string | null`. -/
structure CustomRequest where
  id : String
  userId : String
  userEmail : String
  userName : String
  title : String
  description : String
  quantity : Int
  budget : Int
  phone : String
  image : Option String
  status : String
  date : String
deriving DecidableEq

/-- Modelled from the spec: the authenticated user provided by the
`AuthContext` module, which is not among the repository's source files.
`UserProfile.tsx` reads `user.id`, `user.name`, `user.email`, `user.role`. -/
structure User where
  id : String
  name : String
  email : String
  role : String
deriving DecidableEq

/-- JSON encoding of a cart item, with exactly the documented fields. -/
def CartItem.toJson (it : CartItem) : Json :=
  Json.obj [(("id"), Json.str it.id), (("name"), Json.str it.name),
    (("price"), Json.num it.price), (("quantity"), Json.num it.quantity),
    (("image"), Json.str it.image)]

/-- JSON encoding of an order line item. -/
def OrderItem.toJson (it : OrderItem) : Json :=
  Json.obj [(("id"), Json.str it.id), (("name"), Json.str it.name),
    (("price"), Json.num it.price), (("quantity"), Json.num it.quantity),
    (("image"), Json.str it.image)]

/-- JSON encoding of an order, with exactly the documented fields. -/
def Order.toJson (o : Order) : Json :=
  Json.obj [(("id"), Json.str o.id), (("items"), Json.arr (o.items.map OrderItem.toJson)),
    (("total"), Json.num o.total), (("date"), Json.str o.date),
    (("status"), Json.str o.status)]

/-- JSON encoding of a custom request, with exactly the documented fields. -/
def CustomRequest.toJson (r : CustomRequest) : Json :=
  Json.obj [(("id"), Json.str r.id), (("userId"), Json.str r.userId),
    (("userEmail"), Json.str r.userEmail), (("userName"), Json.str r.userName),
    (("title"), Json.str r.title), (("description"), Json.str r.description),
    (("quantity"), Json.num r.quantity), (("budget"), Json.num r.budget),
    (("phone"), Json.str r.phone),
    (("image"), match r.image with | some s => Json.str s | none => Json.null),
    (("status"), Json.str r.status), (("date"), Json.str r.date)]

/-- Look up an object field by key (JavaScript property access). -/
def lookupField : List (String × Json) → String → Option Json
  | [], _ => none
  | (k, v) :: rest, key => if k = key then some v else lookupField rest key

/-- Property access on a JSON value; `none` on non-objects or missing keys. -/
def Json.getField : Json → String → Option Json
  | .obj fields, key => lookupField fields key
  | _, _ => none

/-- View a JSON value as a string. -/
def Json.asStr : Json → Option String
  | .str s => some s
  | _ => none

/-- View a JSON value as an integer. -/
def Json.asInt : Json → Option Int
  | .num n => some n
  | _ => none

/-- View a JSON value as a nullable string. -/
def Json.asStrOrNull : Json → Option (Option String)
  | .null => some none
  | .str s => some (some s)
  | _ => none

/-- Decode a JSON array elementwise; `none` on non-arrays or when any
element fails to decode (the TypeScript source performs an unchecked cast
here, so only values of the documented shape are in the model). -/
def decodeListWith (f : Json → Option α) : Json → Option (List α)
  | .arr elems => elems.mapM f
  | _ => none

/-- Decode a cart item of the documented shape. -/
def decodeCartItem (j : Json) : Option CartItem := do
  let id ← (j.getField ("id")).bind Json.asStr
  let name ← (j.getField ("name")).bind Json.asStr
  let price ← (j.getField ("price")).bind Json.asInt
  let quantity ← (j.getField ("quantity")).bind Json.asInt
  let image ← (j.getField ("image")).bind Json.asStr
  pure ⟨id, name, price, quantity, image⟩

/-- Decode an order line item of the documented shape. -/
def decodeOrderItem (j : Json) : Option OrderItem := do
  let id ← (j.getField ("id")).bind Json.asStr
  let name ← (j.getField ("name")).bind Json.asStr
  let price ← (j.getField ("price")).bind Json.asInt
  let quantity ← (j.getField ("quantity")).bind Json.asInt
  let image ← (j.getField ("image")).bind Json.asStr
  pure ⟨id, name, price, quantity, image⟩

/-- Decode an order of the documented shape. -/
def decodeOrder (j : Json) : Option Order := do
  let id ← (j.getField ("id")).bind Json.asStr
  let items ← (j.getField ("items")).bind (decodeListWith decodeOrderItem)
  let total ← (j.getField ("total")).bind Json.asInt
  let date ← (j.getField ("date")).bind Json.asStr
  let status ← (j.getField ("status")).bind Json.asStr
  pure ⟨id, items, total, date, status⟩

/-- Decode a custom request of the documented shape. -/
def decodeCustomRequest (j : Json) : Option CustomRequest := do
  let id ← (j.getField ("id")).bind Json.asStr
  let userId ← (j.getField ("userId")).bind Json.asStr
  let userEmail ← (j.getField ("userEmail")).bind Json.asStr
  let userName ← (j.getField ("userName")).bind Json.asStr
  let title ← (j.getField ("title")).bind Json.asStr
  let description ← (j.getField ("description")).bind Json.asStr
  let quantity ← (j.getField ("quantity")).bind Json.asInt
  let budget ← (j.getField ("budget")).bind Json.asInt
  let phone ← (j.getField ("phone")).bind Json.asStr
  let image ← (j.getField ("image")).bind Json.asStrOrNull
  let status ← (j.getField ("status")).bind Json.asStr
  let date ← (j.getField ("date")).bind Json.asStr
  pure ⟨id, userId, userEmail, userName, title, description, quantity, budget,
    phone, image, status, date⟩

/-! ### Navbar (src/src/components/Navbar.tsx) -/

/-- `removeFromCart` from `Navbar.tsx` lines 57-64: filter out every item
whose `id` equals the given id, write the updated list JSON-serialized to
local storage under `cartItems`, and return it as the new cart state. -/
def removeFromCart (id : String) (prevItems : List CartItem) (store : Store) :
    List CartItem × Store :=
  let updatedItems := prevItems.filter (fun item => item.id != id)
  (updatedItems,
    store.set ("cartItems") (Json.stringify (Json.arr (updatedItems.map CartItem.toJson))))

/-- `cartItemsCount` from `Navbar.tsx` line 67: the badge count is the sum
of the `quantity` fields over the cart. -/
def cartItemsCount (cartItems : List CartItem) : Int :=
  cartItems.foldl (fun sum item => sum + item.quantity) 0

/-- Argument of the global `window.addToCart` function declared in
`Navbar.tsx` lines 13-23; `quantity` is optional. -/
structure AddToCartInput where
  id : String
  name : String
  price : Int
  quantity : Option Int
  image : String
deriving DecidableEq

/-- Modelled from the spec: `addItemToCart` is imported from
`components/navbar/cartUtils`, which is not among the repository's source
files.  The spec describes `window.addToCart` as the cart's global mutation
entry point; we model the usual merge-by-id behaviour: an item already in
the cart has its quantity increased (by the given quantity, defaulting to
1), a new item is appended. -/
def addItemToCart (item : AddToCartInput) (prevItems : List CartItem) :
    List CartItem :=
  let qty := item.quantity.getD 1
  if prevItems.any (fun it => it.id == item.id) then
    prevItems.map (fun it =>
      if it.id == item.id then { it with quantity := it.quantity + qty } else it)
  else
    prevItems ++ [⟨item.id, item.name, item.price, qty, item.image⟩]

/-- Modelled from the spec: `loadCartFromStorage` is imported from
`components/navbar/cartUtils`, which is not among the repository's source
files.  Per the spec, missing data defaults to the empty collection and a
JSON parse failure is not guarded (modelled as an error). -/
def loadCartFromStorage (store : Store) : Except String (List CartItem) :=
  match store ("cartItems") with
  | none => .ok []
  | some s =>
    match Json.parse s with
    | none => .error ("SyntaxError: JSON.parse")
    | some j =>
      match decodeListWith decodeCartItem j with
      | none => .error ("unmodeled: stored cartItems value is not a CartItem array")
      | some items => .ok items

/-- State of a mounted or unmounted `Navbar` component together with the
window-level bindings its effects install: whether the component is
mounted, whether `window.addToCart` is attached (first `useEffect`),
whether the `storage` event listener is attached (second `useEffect`), the
in-memory cart state, and local storage. -/
structure NavbarWorld where
  mounted : Bool
  addToCartAttached : Bool
  storageListenerAttached : Bool
  cartItems : List CartItem
  store : Store

/-- Mounting `Navbar` (`useEffect` bodies, lines 31-55): load the cart from
storage, attach the global `addToCart`, attach the `storage` listener. -/
def navbarMount (w : NavbarWorld) : Except String NavbarWorld :=
  match loadCartFromStorage w.store with
  | .error e => .error e
  | .ok items =>
    .ok { w with
          mounted := true
          cartItems := items
          addToCartAttached := true
          storageListenerAttached := true }

/-- Unmounting `Navbar` (cleanup functions, lines 40-42 and 52-54): the
global `addToCart` is deleted and the `storage` listener removed. -/
def navbarUnmount (w : NavbarWorld) : NavbarWorld :=
  { w with
    mounted := false
    addToCartAttached := false
    storageListenerAttached := false }

/-- Calling `window.addToCart(item)` (lines 35-37): when the global is
attached, the cart state becomes `addItemToCart item prevItems`; when it is
not attached the call has no modelled effect. -/
def windowAddToCart (item : AddToCartInput) (w : NavbarWorld) : NavbarWorld :=
  if w.addToCartAttached then
    { w with cartItems := addItemToCart item w.cartItems }
  else w

/-- A `storage` event firing (`handleStorageChange`, lines 47-49): when the
listener is attached, the cart state is reloaded from local storage. -/
def storageEvent (w : NavbarWorld) : Except String NavbarWorld :=
  if w.storageListenerAttached then
    match loadCartFromStorage w.store with
    | .error e => .error e
    | .ok items => .ok { w with cartItems := items }
  else .ok w

/-! ### AllOrders (src/src/pages/AllOrders.tsx) -/

/-- Component state of `AllOrders`: the full order list, the displayed
(filtered) list, and the search term. -/
structure AllOrdersState where
  orders : List Order
  filteredOrders : List Order
  searchTerm : String
deriving DecidableEq

/-- Initial `AllOrders` state: empty lists and an empty search term. -/
def AllOrdersState.initial : AllOrdersState := ⟨[], [], ""⟩

/-- Order-loading effect of `AllOrders` (lines 42-49): when `orders` is
absent nothing happens; otherwise the raw string is `JSON.parse`d without a
surrounding try/catch (a parse failure propagates as an error) and both
`orders` and `filteredOrders` are set to the result. -/
def allOrdersLoad (store : Store) (st : AllOrdersState) :
    Except String AllOrdersState :=
  match store ("orders") with
  | none => .ok st
  | some savedOrders =>
    match Json.parse savedOrders with
    | none => .error ("SyntaxError: JSON.parse")
    | some j =>
      match decodeListWith decodeOrder j with
      | none => .error ("unmodeled: stored orders value is not an Order array")
      | some parsedOrders =>
        .ok { st with orders := parsedOrders, filteredOrders := parsedOrders }

/-- JavaScript whitespace test for `trim` (ASCII subset). -/
def jsWhitespace (c : Char) : Bool :=
  ([' ', '\t', '\n', '\r']).contains c

/-- JavaScript `String.prototype.trim`: strip leading and trailing
whitespace. -/
def jsTrim (s : String) : String :=
  String.mk (((s.data.dropWhile jsWhitespace).reverse.dropWhile jsWhitespace).reverse)

/-- Lowercase an ASCII letter (JavaScript `toLowerCase`, restricted to the
ASCII identifiers this program generates). -/
def charToLower (c : Char) : Char :=
  if 65 ≤ c.toNat ∧ c.toNat ≤ 90 then Char.ofNat (c.toNat + 32) else c

/-- JavaScript `String.prototype.toLowerCase` on ASCII strings. -/
def jsToLower (s : String) : String := String.mk (s.data.map charToLower)

/-- JavaScript `String.prototype.includes` on character lists. -/
def charsContain (s pat : List Char) : Bool :=
  match s with
  | [] => pat.isEmpty
  | _ :: rest => pat.isPrefixOf s || charsContain rest pat

/-- JavaScript `a.includes(b)`: substring containment. -/
def strContains (s pat : String) : Bool := charsContain s.data pat.data

/-- `handleSearch` from `AllOrders.tsx` lines 52-64: record the search
term; a term that trims to empty displays the full list, otherwise the
displayed list is the orders whose lowercased id contains the lowercased
(untrimmed) term. -/
def handleSearch (term : String) (st : AllOrdersState) : AllOrdersState :=
  if jsTrim term = ("") then
    { st with searchTerm := term, filteredOrders := st.orders }
  else
    { st with
      searchTerm := term
      filteredOrders := st.orders.filter (fun order =>
        strContains (jsToLower order.id) (jsToLower term)) }

/-- `updateOrderStatus` from `AllOrders.tsx` lines 67-86: replace the
`status` field of every order whose id matches, in both `orders` and
`filteredOrders`, and persist the updated full list JSON-serialized under
`orders`. -/
def updateOrderStatus (orderId newStatus : String) (st : AllOrdersState)
    (store : Store) : AllOrdersState × Store :=
  let updatedOrders := st.orders.map (fun order =>
    if order.id = orderId then { order with status := newStatus } else order)
  let updatedFiltered := st.filteredOrders.map (fun order =>
    if order.id = orderId then { order with status := newStatus } else order)
  ({ st with orders := updatedOrders, filteredOrders := updatedFiltered },
    store.set ("orders") (Json.stringify (Json.arr (updatedOrders.map Order.toJson))))

/-! ### UserProfile (src/unnamed/part_001) -/

/-- Data-loading effect of `UserProfile` (lines 57-71): orders are read as
`JSON.parse(localStorage.getItem('orders') || '[]')` and shown WITHOUT
filtering by user (the source comment says: for demo purposes, show all
orders); custom requests are read the same way from `customRequests` and
filtered to those whose `userId` equals the logged-in user's id.  Parse
failures are not guarded and propagate as errors. -/
def userProfileLoad (user : User) (store : Store) :
    Except String (List Order × List CustomRequest) :=
  match Json.parse ((store ("orders")).getD ("[]")) with
  | none => .error ("SyntaxError: JSON.parse")
  | some jOrders =>
    match decodeListWith decodeOrder jOrders with
    | none => .error ("unmodeled: stored orders value is not an Order array")
    | some allOrders =>
      match Json.parse ((store ("customRequests")).getD ("[]")) with
      | none => .error ("SyntaxError: JSON.parse")
      | some jRequests =>
        match decodeListWith decodeCustomRequest jRequests with
        | none => .error ("unmodeled: stored customRequests value is not a CustomRequest array")
        | some allRequests =>
          .ok (allOrders, allRequests.filter (fun request => request.userId == user.id))

/-! ### Concrete sample data used to exercise the operations -/

/-- Sample order. -/
def sampleOrder : Order := ⟨"order-17", [⟨"towel-1", "Towel", 100, 2, "t.png"⟩], 200, "2025-01-01", "Processing"⟩

/-- Sample authenticated user. -/
def sampleAlice : User := ⟨"user-1", "Alice", "alice@example.com", "user"⟩

/-- Second sample authenticated user, distinct from the first. -/
def sampleBob : User := ⟨"user-2", "Bob", "bob@example.com", "user"⟩

/-- Local storage holding one order and nothing else. -/
def sampleOrdersStore : Store :=
  Store.empty.set ("orders") (Json.stringify (Json.arr [sampleOrder.toJson]))

/-- Sample custom request belonging to the second sample user. -/
def sampleRequestMine : CustomRequest :=
  ⟨"req-1", "user-2", "bob@example.com", "Bob", "Logo towel", "Towel with a logo",
    10, 200, "12345", none, "pending", "2025-01-02"⟩

/-- Sample custom request belonging to the first sample user. -/
def sampleRequestOther : CustomRequest :=
  ⟨"req-2", "user-1", "alice@example.com", "Alice", "Beach towel", "A big towel",
    5, 300, "67890", some ("x.png"), "approved", "2025-01-03"⟩

/-- Local storage holding one order and two custom requests. -/
def sampleFullStore : Store :=
  (Store.empty.set ("orders") (Json.stringify (Json.arr [sampleOrder.toJson]))).set
    ("customRequests")
    (Json.stringify (Json.arr [sampleRequestMine.toJson, sampleRequestOther.toJson]))

/-- Sample cart item. -/
def sampleCartItem : CartItem := ⟨"towel-3", "Hand Towel", 50, 4, "h.png"⟩

/-- Local storage holding a one-item cart. -/
def sampleCartStore : Store :=
  Store.empty.set ("cartItems") (Json.stringify (Json.arr [sampleCartItem.toJson]))

/-- A mounted `Navbar` world over empty storage. -/
def sampleWorld : NavbarWorld := ⟨true, true, true, [], Store.empty⟩

/-- A mounted `Navbar` world whose storage holds a one-item cart. -/
def sampleCartWorld : NavbarWorld := ⟨true, true, true, [], sampleCartStore⟩

/-- Sample argument for the global `addToCart`. -/
def sampleAddInput : AddToCartInput := ⟨"towel-3", "Hand Towel", 50, some 2, "h.png"⟩

/-- Cart entry sharing its id with `dupItemB`. -/
def dupItemA : CartItem := ⟨"towel-9", "Bath Towel", 100, 2, "a.png"⟩

/-- Cart entry sharing its id with `dupItemA` but with a different quantity. -/
def dupItemB : CartItem := ⟨"towel-9", "Bath Towel", 100, 3, "b.png"⟩

/-! ### Helper lemmas -/

/-- Folding the badge-count accumulator from an arbitrary initial value. -/
theorem cartItemsCount_foldl_shift (l : List CartItem) :
    ∀ init : Int, l.foldl (fun sum item => sum + item.quantity) init
      = init + cartItemsCount l := by
  induction l with
  | nil => intro init; simp [cartItemsCount]
  | cons hd tl ih =>
    intro init
    have h1 : (hd :: tl).foldl (fun sum item => sum + item.quantity) init
        = tl.foldl (fun sum item => sum + item.quantity) (init + hd.quantity) := rfl
    have h2 : cartItemsCount (hd :: tl)
        = tl.foldl (fun sum item => sum + item.quantity) (0 + hd.quantity) := rfl
    rw [h1, h2, ih, ih]
    ring

/-- Badge count of a cons cell. -/
theorem cartItemsCount_cons (it : CartItem) (l : List CartItem) :
    cartItemsCount (it :: l) = it.quantity + cartItemsCount l := by
  have h : cartItemsCount (it :: l)
      = l.foldl (fun sum item => sum + item.quantity) (0 + it.quantity) := rfl
  rw [h, cartItemsCount_foldl_shift]
  ring

/-- The badge count is the sum of the quantities. -/
theorem cartItemsCount_eq_sum (l : List CartItem) :
    cartItemsCount l = (l.map (fun it => it.quantity)).sum := by
  induction l with
  | nil => rfl
  | cons hd tl ih => rw [cartItemsCount_cons, ih]; simp

/-- The badge count splits over a filter and its complement. -/
theorem cartItemsCount_filter_split (p : CartItem → Bool) (l : List CartItem) :
    cartItemsCount (l.filter p) + cartItemsCount (l.filter (fun it => !(p it)))
      = cartItemsCount l := by
  induction l with
  | nil => rfl
  | cons hd tl ih =>
    cases hp : p hd <;>
      simp only [List.filter_cons, hp, Bool.not_true, Bool.not_false, if_pos, if_neg,
        Bool.false_eq_true, not_false_eq_true, Bool.true_eq_false, ite_true, ite_false,
        cartItemsCount_cons] <;>
      omega

/-! ### Claims -/

/-- Claim C2: `removeFromCart` produces exactly the items whose id differs
from the given id, in order and with all fields intact, and writes that
same list JSON-serialized to local storage under `cartItems`. -/
theorem navbar_remove_from_cart (id : String) (items : List CartItem) (store : Store) :
    (removeFromCart id items store).1 = items.filter (fun item => item.id != id)
    ∧ (removeFromCart id items store).2 ("cartItems")
        = some (Json.stringify (Json.arr
            (((removeFromCart id items store).1).map CartItem.toJson))) := by
  refine ⟨rfl, ?_⟩
  simp [removeFromCart, Store.set]

/-- Claim C8 (counterexample): with two cart entries sharing an id, the
badge count is 5, yet removing the first entry (quantity 2) removes both
entries and drops the count to 0, not by exactly 2. -/
theorem cart_badge_duplicate_ids :
    dupItemA ∈ [dupItemA, dupItemB]
    ∧ dupItemA.quantity = 2
    ∧ cartItemsCount [dupItemA, dupItemB] = 5
    ∧ (removeFromCart (dupItemA.id) [dupItemA, dupItemB] Store.empty).1 = []
    ∧ cartItemsCount ((removeFromCart (dupItemA.id) [dupItemA, dupItemB] Store.empty).1) = 0
    ∧ cartItemsCount [dupItemA, dupItemB]
        - cartItemsCount ((removeFromCart (dupItemA.id) [dupItemA, dupItemB] Store.empty).1)
        ≠ dupItemA.quantity := by
  decide

/-- Claim C8 (amended): the badge count shown by `Navbar` is the sum of
the `quantity` fields of the cart; when a removed id matches exactly one
cart entry, removal decreases the count by exactly that entry's quantity
(`removeFromCart` removes every entry sharing the id, so with duplicate
ids the count drops by their total quantity instead). -/
theorem cart_badge_count (cart : List CartItem) (id : String) (item : CartItem)
    (store : Store) :
    cartItemsCount cart = (cart.map (fun it => it.quantity)).sum
    ∧ (cart.filter (fun it => it.id == id) = [item] →
        cartItemsCount ((removeFromCart id cart store).1)
          = cartItemsCount cart - item.quantity) := by
  constructor
  · exact cartItemsCount_eq_sum cart
  · intro h
    have hsplit := cartItemsCount_filter_split (fun it => it.id == id) cart
    rw [h] at hsplit
    have h1 : (removeFromCart id cart store).1
        = cart.filter (fun it => !(it.id == id)) := rfl
    have h2 : cartItemsCount [item] = item.quantity := by
      rw [cartItemsCount_cons]
      simp [cartItemsCount]
    rw [h1]
    omega

/-- Claim C8 (witness): a singleton cart exercising the amended theorem. -/
theorem cart_badge_count_witness :
    cartItemsCount [sampleCartItem]
        = (([sampleCartItem]).map (fun it => it.quantity)).sum
    ∧ cartItemsCount ((removeFromCart ("towel-3") [sampleCartItem] Store.empty).1)
        = cartItemsCount [sampleCartItem] - sampleCartItem.quantity :=
  ⟨(cart_badge_count [sampleCartItem] ("towel-3") sampleCartItem Store.empty).1,
   (cart_badge_count [sampleCartItem] ("towel-3") sampleCartItem Store.empty).2 (by decide)⟩

/-- Claim C10: `handleSearch` leaves the full order list unchanged and
displays all orders when the term trims to empty, and otherwise exactly
the orders whose lowercased id contains the lowercased untrimmed term; the
displayed list is always a sublist of the full list. -/
theorem allorders_search (term : String) (st : AllOrdersState) :
    (handleSearch term st).orders = st.orders
    ∧ (jsTrim term = ("") → (handleSearch term st).filteredOrders = st.orders)
    ∧ (jsTrim term ≠ ("") → (handleSearch term st).filteredOrders
        = st.orders.filter (fun order =>
            strContains (jsToLower order.id) (jsToLower term)))
    ∧ List.Sublist ((handleSearch term st).filteredOrders) st.orders := by
  by_cases h : jsTrim term = ("")
  · exact ⟨by simp [handleSearch, h], fun _ => by simp [handleSearch, h],
      fun hc => absurd h hc, by simp [handleSearch, h]⟩
  · refine ⟨by simp [handleSearch, h], fun hc => absurd hc h,
      fun _ => by simp [handleSearch, h], ?_⟩
    simp only [handleSearch, h, ite_false, if_neg]
    exact List.filter_sublist st.orders

/-- Claim C10 (witness): a whitespace-only term and a non-empty term on a
one-order state. -/
theorem allorders_search_witness :
    (handleSearch ("  ") ⟨[sampleOrder], [], ""⟩).filteredOrders = [sampleOrder]
    ∧ (handleSearch ("ORDER") ⟨[sampleOrder], [], ""⟩).filteredOrders
        = ([sampleOrder] : List Order).filter (fun order =>
            strContains (jsToLower order.id) (jsToLower ("ORDER"))) :=
  ⟨(allorders_search ("  ") ⟨[sampleOrder], [], ""⟩).2.1 (by decide),
   (allorders_search ("ORDER") ⟨[sampleOrder], [], ""⟩).2.2.1 (by decide)⟩

/-- Claim C3: a malformed (non-JSON) string under the `orders` key makes
the order-loading step of `AllOrders` fail with an uncaught parse error
instead of falling back to a default value. -/
theorem allorders_unguarded_parse :
    Json.parse ("not json") = none
    ∧ allOrdersLoad (Store.empty.set ("orders") ("not json")) AllOrdersState.initial
        = .error ("SyntaxError: JSON.parse") :=
  ⟨rfl, rfl⟩

/-- Claim C4: with no value stored under `orders` or `customRequests`, the
loading steps of `AllOrders` and `UserProfile` leave every collection
(`orders`, `filteredOrders`, `customRequests`) equal to the empty list. -/
theorem missing_storage_defaults (user : User) (store : Store)
    (h1 : store ("orders") = none) (h2 : store ("customRequests") = none) :
    allOrdersLoad store AllOrdersState.initial = .ok AllOrdersState.initial
    ∧ AllOrdersState.initial.orders = []
    ∧ AllOrdersState.initial.filteredOrders = []
    ∧ userProfileLoad user store = .ok ([], []) := by
  refine ⟨?_, rfl, rfl, ?_⟩
  · simp [allOrdersLoad, h1]
  · unfold userProfileLoad
    rw [h1, h2]
    rfl

/-- Claim C4 (witness): the empty store. -/
theorem missing_storage_defaults_witness :
    allOrdersLoad Store.empty AllOrdersState.initial = .ok AllOrdersState.initial
    ∧ AllOrdersState.initial.orders = []
    ∧ AllOrdersState.initial.filteredOrders = []
    ∧ userProfileLoad sampleAlice Store.empty = .ok ([], []) :=
  missing_storage_defaults sampleAlice Store.empty rfl rfl

/-- Claim C9: `updateOrderStatus` maps the full order list through a
function that rewrites the `status` of orders with the matching id and
fixes every other order and every other field, and persists exactly the
updated list JSON-serialized under `orders`. -/
theorem allorders_update_status (orderId newStatus : String)
    (st : AllOrdersState) (store : Store) :
    ((updateOrderStatus orderId newStatus st store).1).orders
        = st.orders.map (fun order =>
            if order.id = orderId then { order with status := newStatus } else order)
    ∧ (∀ order : Order, order.id ≠ orderId →
        (if order.id = orderId then { order with status := newStatus } else order) = order)
    ∧ (∀ order : Order, order.id = orderId →
        (if order.id = orderId then { order with status := newStatus } else order)
          = ⟨order.id, order.items, order.total, order.date, newStatus⟩)
    ∧ (updateOrderStatus orderId newStatus st store).2 ("orders")
        = some (Json.stringify (Json.arr
            ((((updateOrderStatus orderId newStatus st store).1).orders).map Order.toJson)))
    ∧ (∀ k, k ≠ ("orders") →
        (updateOrderStatus orderId newStatus st store).2 k = store k) := by
  refine ⟨rfl, ?_, ?_, ?_, ?_⟩
  · intro order hne
    rw [if_neg hne]
  · intro order heq
    rw [if_pos heq]
  · simp [updateOrderStatus, Store.set]
  · intro k hk
    simp [updateOrderStatus, Store.set, hk]

/-- Claim C9 (witness): updating the status of the sample order. -/
theorem allorders_update_status_witness :
    ((updateOrderStatus (sampleOrder.id) ("Shipped")
        ⟨[sampleOrder], [sampleOrder], ""⟩ Store.empty).1).orders
      = ([sampleOrder] : List Order).map (fun order =>
          if order.id = sampleOrder.id then { order with status := ("Shipped") } else order)
    ∧ (if sampleOrder.id = sampleOrder.id
        then { sampleOrder with status := ("Shipped") } else sampleOrder)
      = ⟨sampleOrder.id, sampleOrder.items, sampleOrder.total, sampleOrder.date, ("Shipped")⟩
    ∧ (updateOrderStatus (sampleOrder.id) ("Shipped")
        ⟨[sampleOrder], [sampleOrder], ""⟩ Store.empty).2 ("cartItems") = none :=
  ⟨(allorders_update_status (sampleOrder.id) ("Shipped")
      ⟨[sampleOrder], [sampleOrder], ""⟩ Store.empty).1,
   (allorders_update_status (sampleOrder.id) ("Shipped")
      ⟨[sampleOrder], [sampleOrder], ""⟩ Store.empty).2.2.1 sampleOrder rfl,
   (allorders_update_status (sampleOrder.id) ("Shipped")
      ⟨[sampleOrder], [sampleOrder], ""⟩ Store.empty).2.2.2.2 ("cartItems") (by decide)⟩

set_option maxRecDepth 8192 in
/-- Claim C1 (counterexample): the profile page's order history is not
scoped to the logged-in user: with one stored order, two distinct
authenticated users are both shown that same order (the source comment
says it shows all orders for demo purposes). -/
theorem userprofile_shows_other_users_orders :
    sampleAlice.id ≠ sampleBob.id
    ∧ userProfileLoad sampleAlice sampleOrdersStore = .ok ([sampleOrder], [])
    ∧ userProfileLoad sampleBob sampleOrdersStore = .ok ([sampleOrder], []) :=
  ⟨by decide, rfl, rfl⟩

/-- Claim C1 (amended): the custom requests shown by `UserProfile` are
exactly the stored requests whose `userId` equals the logged-in user's id,
but the order history shown is the entire stored order list, for every
user alike. -/
theorem userprofile_loaded_data (user : User) (store : Store)
    (jOrders jRequests : Json) (allOrders : List Order)
    (allRequests : List CustomRequest)
    (h1 : Json.parse ((store ("orders")).getD ("[]")) = some jOrders)
    (h2 : decodeListWith decodeOrder jOrders = some allOrders)
    (h3 : Json.parse ((store ("customRequests")).getD ("[]")) = some jRequests)
    (h4 : decodeListWith decodeCustomRequest jRequests = some allRequests) :
    userProfileLoad user store
      = .ok (allOrders, allRequests.filter (fun request => request.userId == user.id)) := by
  simp [userProfileLoad, h1, h2, h3, h4]

set_option maxRecDepth 8192 in
/-- Claim C1 (witness): a store with one order and two custom requests;
the second sample user is shown the full order list and only their own
request. -/
theorem userprofile_loaded_data_witness :
    userProfileLoad sampleBob sampleFullStore
      = .ok ([sampleOrder], [sampleRequestMine]) :=
  userprofile_loaded_data sampleBob sampleFullStore
    (Json.arr [sampleOrder.toJson])
    (Json.arr [sampleRequestMine.toJson, sampleRequestOther.toJson])
    [sampleOrder] [sampleRequestMine, sampleRequestOther]
    rfl rfl rfl rfl

/-- Claim C6: mounting `Navbar` attaches the global `addToCart`; while it
is attached, calling it updates the cart state by applying `addItemToCart`
to the item and the previous cart; unmounting removes the global. -/
theorem navbar_global_addToCart (w w' : NavbarWorld) (item : AddToCartInput) :
    (navbarMount w = .ok w' → w'.mounted = true ∧ w'.addToCartAttached = true)
    ∧ (w.addToCartAttached = true →
        windowAddToCart item w = { w with cartItems := addItemToCart item w.cartItems })
    ∧ (navbarUnmount w).addToCartAttached = false := by
  refine ⟨?_, ?_, rfl⟩
  · intro h
    unfold navbarMount at h
    split at h
    · cases h
    · injection h with h
      subst h
      exact ⟨rfl, rfl⟩
  · intro h
    simp [windowAddToCart, h]

/-- Claim C6 (witness): a mounted world over empty storage. -/
theorem navbar_global_addToCart_witness :
    (sampleWorld.mounted = true ∧ sampleWorld.addToCartAttached = true)
    ∧ windowAddToCart sampleAddInput sampleWorld
        = { sampleWorld with cartItems := addItemToCart sampleAddInput sampleWorld.cartItems }
    ∧ (navbarUnmount sampleWorld).addToCartAttached = false :=
  ⟨(navbar_global_addToCart sampleWorld sampleWorld sampleAddInput).1 rfl,
   (navbar_global_addToCart sampleWorld sampleWorld sampleAddInput).2.1 rfl,
   (navbar_global_addToCart sampleWorld sampleWorld sampleAddInput).2.2⟩

/-- Claim C7: mounting `Navbar` attaches the `storage` listener, and while
it is attached every `storage` event reloads the in-memory cart state from
local storage, so afterwards the cart state equals the cart stored under
`cartItems`. -/
theorem navbar_storage_event_sync (w w' : NavbarWorld) (items : List CartItem) :
    (navbarMount w = .ok w' → w'.storageListenerAttached = true)
    ∧ (w.storageListenerAttached = true →
        loadCartFromStorage w.store = .ok items →
        storageEvent w = .ok { w with cartItems := items }) := by
  constructor
  · intro h
    unfold navbarMount at h
    split at h
    · cases h
    · injection h with h
      subst h
      rfl
  · intro hl hload
    simp [storageEvent, hl, hload]

set_option maxRecDepth 8192 in
/-- Claim C7 (witness): a `storage` event on a mounted world whose storage
holds a one-item cart makes the cart state that item. -/
theorem navbar_storage_event_sync_witness :
    storageEvent sampleCartWorld
      = .ok { sampleCartWorld with cartItems := [sampleCartItem] } :=
  (navbar_storage_event_sync sampleCartWorld sampleCartWorld [sampleCartItem]).2 rfl rfl

/-- Claim C5: every local-storage write the modelled operations perform
targets one of the keys `cartItems` or `orders` and stores a
JSON-serialized array of `CartItem` records respectively `Order` records,
leaving every other key unchanged; and every modelled read depends only on
the keys `cartItems`, `orders`, `customRequests` (two stores agreeing on
those keys load identically). -/
theorem storage_interface (id : String) (items : List CartItem)
    (orderId newStatus : String) (st : AllOrdersState) (user : User) (store : Store) :
    (removeFromCart id items store).2 ("cartItems")
        = some (Json.stringify (Json.arr
            ((items.filter (fun item => item.id != id)).map CartItem.toJson)))
    ∧ (∀ k, k ≠ ("cartItems") → (removeFromCart id items store).2 k = store k)
    ∧ (updateOrderStatus orderId newStatus st store).2 ("orders")
        = some (Json.stringify (Json.arr
            ((st.orders.map (fun order =>
                if order.id = orderId then { order with status := newStatus }
                else order)).map Order.toJson)))
    ∧ (∀ k, k ≠ ("orders") → (updateOrderStatus orderId newStatus st store).2 k = store k)
    ∧ (∀ store' : Store, store ("cartItems") = store' ("cartItems") →
        loadCartFromStorage store = loadCartFromStorage store')
    ∧ (∀ store' : Store, store ("orders") = store' ("orders") →
        allOrdersLoad store st = allOrdersLoad store' st)
    ∧ (∀ store' : Store, store ("orders") = store' ("orders") →
        store ("customRequests") = store' ("customRequests") →
        userProfileLoad user store = userProfileLoad user store') := by
  refine ⟨?wc, ?wf, ?oc, ?of, ?rc, ?ro, ?rp⟩
  · simp [removeFromCart, Store.set]
  · intro k hk
    simp [removeFromCart, Store.set, hk]
  · simp [updateOrderStatus, Store.set]
  · intro k hk
    simp [updateOrderStatus, Store.set, hk]
  · intro store' h
    unfold loadCartFromStorage
    rw [h]
  · intro store' h
    unfold allOrdersLoad
    rw [h]
  · intro store' h1 h2
    unfold userProfileLoad
    rw [h1, h2]

/-- Claim C5 (witness): concrete instances of the write-shape and
read-dependence conjuncts. -/
theorem storage_interface_witness :
    (removeFromCart ("a") [] Store.empty).2 ("cartItems")
        = some (Json.stringify (Json.arr []))
    ∧ (removeFromCart ("a") [] Store.empty).2 ("orders") = none
    ∧ loadCartFromStorage Store.empty
        = loadCartFromStorage (Store.empty.set ("orders") ("zz")) :=
  ⟨(storage_interface ("a") [] ("o") ("Shipped") AllOrdersState.initial
      sampleAlice Store.empty).1,
   (storage_interface ("a") [] ("o") ("Shipped") AllOrdersState.initial
      sampleAlice Store.empty).2.1 ("orders") (by decide),
   (storage_interface ("a") [] ("o") ("Shipped") AllOrdersState.initial
      sampleAlice Store.empty).2.2.2.2.1 (Store.empty.set ("orders") ("zz")) rfl⟩

end Towel
